import Mathlib

/-!
Shallow embedding of `src/charm.py` from the charm-software-inventory-collector
repository, together with theorems checking the specification's claims.

The charm's effectful operations (subprocess execution, resource fetching,
file size queries) are modelled by an explicit `World` record of oracles; the
observable effects of each handler (commands executed, statuses set, snap
operations performed, action results, file writes) are returned explicitly.
Python exceptions are modelled with `Except`.
-/

namespace Collector

/-! ## Python base64.b64decode (validate=False) and bytes.decode("UTF-8")

`render_config` runs `b64decode(self.config.get("juju_ca_cert", "")).decode("UTF-8")`.
We embed CPython's `binascii.a2b_base64` in non-strict mode: characters outside
the base64 alphabet are discarded; `=` padding completes a quad once at least
two data characters of the quad are present; a leftover quad of one data
character, or of two or three data characters without enough padding, raises
`binascii.Error`. -/

/-- Index of a character in the standard base64 alphabet, if any. -/
def b64Index (c : Char) : Option Nat :=
  if 'A' ≤ c ∧ c ≤ 'Z' then some (c.toNat - 65)
  else if 'a' ≤ c ∧ c ≤ 'z' then some (c.toNat - 97 + 26)
  else if '0' ≤ c ∧ c ≤ '9' then some (c.toNat - 48 + 52)
  else if c = '+' then some 62
  else if c = '/' then some 63
  else none

/-- Decoder state of `binascii.a2b_base64`: position within the current quad,
the pending bits of the current quad, the count of consecutive pad characters,
and the bytes output so far. -/
structure B64State where
  quadPos : Nat
  leftchar : Nat
  pads : Nat
  out : List Nat

/-- The character-processing loop of CPython's `a2b_base64` (non-strict mode).
Returns the decoded bytes or the text of the `binascii.Error` raised. -/
def a2bBase64Loop : List Char → B64State → Except String (List Nat)
  | [], st =>
      if st.quadPos = 0 then .ok st.out
      else if st.quadPos = 1 then
        .error "binascii.Error: Invalid base64-encoded string: number of data characters cannot be 1 more than a multiple of 4"
      else .error "binascii.Error: Incorrect padding"
  | c :: rest, st =>
      if c = '=' then
        if 2 ≤ st.quadPos then
          if 4 ≤ st.quadPos + (st.pads + 1) then .ok st.out
          else a2bBase64Loop rest { st with pads := st.pads + 1 }
        else a2bBase64Loop rest st
      else
        match b64Index c with
        | none => a2bBase64Loop rest st
        | some v =>
          match st.quadPos with
          | 0 => a2bBase64Loop rest { quadPos := 1, leftchar := v, pads := 0, out := st.out }
          | 1 => a2bBase64Loop rest
              { quadPos := 2, leftchar := v % 16, pads := 0,
                out := st.out ++ [st.leftchar * 4 + v / 16] }
          | 2 => a2bBase64Loop rest
              { quadPos := 3, leftchar := v % 4, pads := 0,
                out := st.out ++ [st.leftchar * 16 + v / 4] }
          | _ => a2bBase64Loop rest
              { quadPos := 0, leftchar := 0, pads := 0,
                out := st.out ++ [st.leftchar * 64 + v] }

/-- Python `base64.b64decode(s)` on a `str` argument: the string is first
encoded as ASCII (raising `ValueError` on non-ASCII input), then fed to
`a2b_base64` in non-strict mode. -/
def b64decode (s : String) : Except String (List Nat) :=
  if s.data.all (fun c => c.toNat < 128) then
    a2bBase64Loop s.data { quadPos := 0, leftchar := 0, pads := 0, out := [] }
  else .error "ValueError: string argument should contain only ASCII characters"

/-- Strict UTF-8 decoding of a byte list, as Python's `bytes.decode(\"UTF-8\")`:
`none` models a raised `UnicodeDecodeError`. -/
def utf8Decode : List Nat → Option (List Char)
  | [] => some []
  | b1 :: t1 =>
    if b1 < 0x80 then
      (utf8Decode t1).map (Char.ofNat b1 :: ·)
    else if b1 < 0xC2 then none
    else if b1 < 0xE0 then
      match t1 with
      | b2 :: t2 =>
        if 0x80 ≤ b2 ∧ b2 < 0xC0 then
          (utf8Decode t2).map (Char.ofNat ((b1 - 0xC0) * 0x40 + (b2 - 0x80)) :: ·)
        else none
      | [] => none
    else if b1 < 0xF0 then
      match t1 with
      | b2 :: b3 :: t3 =>
        let lo2 := if b1 = 0xE0 then 0xA0 else 0x80
        let hi2 := if b1 = 0xED then 0x9F else 0xBF
        if lo2 ≤ b2 ∧ b2 ≤ hi2 ∧ 0x80 ≤ b3 ∧ b3 < 0xC0 then
          (utf8Decode t3).map
            (Char.ofNat ((b1 - 0xE0) * 0x1000 + (b2 - 0x80) * 0x40 + (b3 - 0x80)) :: ·)
        else none
      | _ => none
    else if b1 < 0xF5 then
      match t1 with
      | b2 :: b3 :: b4 :: t4 =>
        let lo2 := if b1 = 0xF0 then 0x90 else 0x80
        let hi2 := if b1 = 0xF4 then 0x8F else 0xBF
        if lo2 ≤ b2 ∧ b2 ≤ hi2 ∧ 0x80 ≤ b3 ∧ b3 < 0xC0 ∧ 0x80 ≤ b4 ∧ b4 < 0xC0 then
          (utf8Decode t4).map
            (Char.ofNat ((b1 - 0xF0) * 0x40000 + (b2 - 0x80) * 0x1000
              + (b3 - 0x80) * 0x40 + (b4 - 0x80)) :: ·)
        else none
      | _ => none
    else none

/-- `b64decode(s).decode("UTF-8")` as run on line 138 of `charm.py`. -/
def decodeCaCert (s : String) : Except String String :=
  match b64decode s with
  | .error e => .error e
  | .ok bs =>
    match utf8Decode bs with
    | some cs => .ok (String.mk cs)
    | none => .error "UnicodeDecodeError"

/-! ## Configuration options and relation data -/

/-- Charm configuration options, a string-to-string mapping; `lookupBag`
models `dict.get`: `none` when the key is absent. -/
abbrev Bag := List (String × String)

/-- `bag.get(key)` returning `None` when absent. -/
def lookupBag : Bag → String → Option String
  | [], _ => none
  | (k, v) :: rest, key => if k = key then some v else lookupBag rest key

/-- Python `str(x)` applied to an `Optional[str]` as in an f-string:
`None` renders as the text `"None"`. -/
def pyStrOpt : Option String → String
  | none => "None"
  | some s => s

/-- One relation on the `inventory-exporter` endpoint: the data bags
advertised by the remote units (`relation.data[unit]` for `unit` in
`relation.units`). -/
structure Relation where
  units : List Bag

/-- The snap name constant `COLLECTOR_SNAP`. -/
def COLLECTOR_SNAP : String := "software-inventory-collector"

/-- The configuration-file path constant `CONFIG_PATH`. -/
def CONFIG_PATH : String := "/var/snap/" ++ COLLECTOR_SNAP ++ "/current/collector.yaml"

/-! ## The rendered configuration document -/

/-- The `settings` section of the rendered document. Python `None` values are
`Option.none` (serialized by YAML as `null`). -/
structure Settings where
  collection_path : Option String
  customer : Option String
  site : Option String
deriving DecidableEq, Repr

/-- The `juju_controller` section of the rendered document. -/
structure JujuController where
  endpoint : Option String
  username : Option String
  password : Option String
  ca_cert : String
deriving DecidableEq, Repr

/-- One entry of the `targets` section. -/
structure Target where
  endpoint : String
  hostname : Option String
  customer : Option String
  site : Option String
  model : Option String
deriving DecidableEq, Repr

/-- The full document assembled by `render_config`. -/
structure CollectorConfig where
  settings : Settings
  juju_controller : JujuController
  targets : List Target
deriving DecidableEq, Repr

/-- The target record built for one remote unit (`charm.py` lines 150-160):
`endpoint` is the f-string `"{private-address}:{port}"` (where a missing key
renders as the text `None`), `hostname` and `model` are taken from the unit's
bag, `customer` and `site` from the charm's own options. -/
def mkTarget (customer site : Option String) (remote_data : Bag) : Target :=
  { endpoint := pyStrOpt (lookupBag remote_data "private-address") ++ ":"
      ++ pyStrOpt (lookupBag remote_data "port"),
    hostname := lookupBag remote_data "hostname",
    customer := customer,
    site := site,
    model := lookupBag remote_data "model" }

/-- `render_config` (`charm.py` lines 124-163). Inputs: the charm config
options and the `inventory-exporter` relations. Output: the document written,
or the exception raised by the base64/UTF-8 decode on line 138, together with
the list of file writes performed (path and document). The decode runs before
the file is opened, so on error no write happens. -/
def render_config (cfg : Bag) (relations : List Relation) :
    Except String CollectorConfig × List (String × CollectorConfig) :=
  let customer := lookupBag cfg "customer"
  let site := lookupBag cfg "site"
  match decodeCaCert ((lookupBag cfg "juju_ca_cert").getD "") with
  | .error e => (.error e, [])
  | .ok ca_cert =>
    let doc : CollectorConfig :=
      { settings :=
          { collection_path := lookupBag cfg "collection_path",
            customer := customer,
            site := site },
        juju_controller :=
          { endpoint := lookupBag cfg "juju_endpoint",
            username := lookupBag cfg "juju_username",
            password := lookupBag cfg "juju_password",
            ca_cert := ca_cert },
        targets := (relations.map fun r => r.units.map (mkTarget customer site)).flatten }
    (.ok doc, [(CONFIG_PATH, doc)])

/-! ## The effectful environment -/

/-- Outcome of running an external command: the process ran and exited with a
code, or the invocation itself raised (e.g. `FileNotFoundError` when the
executable is absent). -/
inductive ExecOutcome where
  | exited (code : Nat) (output : String)
  | raised (e : String)

/-- Python exceptions distinguished by the charm code. -/
inductive PyError where
  | calledProcessError (output : String)
  | osError (e : String)
deriving DecidableEq, Repr

/-- Status values the charm can assign to `self.unit.status`. -/
inductive UnitStatus where
  | active (msg : String)
  | blocked (msg : String)
  | waiting (msg : String)
  | maintenance (msg : String)
deriving DecidableEq, Repr

/-- Snap operations performed by `_on_install`. -/
inductive SnapOp where
  | installLocal (path : String) (dangerous : Bool)
  | ensureLatest
deriving DecidableEq, Repr

/-- The ambient host environment: how commands exit, what
`model.resources.fetch` yields (`.error ()` models a raised `ModelError`),
and what `os.path.getsize` yields (`.error` models a raised `OSError`). -/
structure World where
  exec : List String → ExecOutcome
  fetchResource : String → Except Unit String
  getsize : String → Except String Nat

/-- Observable effects of one handler invocation: commands executed, unit
statuses assigned, snap operations performed, `resources.fetch` calls made,
action results set and action failures reported, in order. -/
structure Effects where
  execs : List (List String) := []
  statusSets : List UnitStatus := []
  snapOps : List SnapOp := []
  fetches : Nat := 0
  actionResults : List (List (String × String)) := []
  actionFails : List String := []
deriving DecidableEq, Repr

/-- Sequential composition of effects. -/
def Effects.app (a b : Effects) : Effects :=
  { execs := a.execs ++ b.execs,
    statusSets := a.statusSets ++ b.statusSets,
    snapOps := a.snapOps ++ b.snapOps,
    fetches := a.fetches + b.fetches,
    actionResults := a.actionResults ++ b.actionResults,
    actionFails := a.actionFails ++ b.actionFails }

/-- `subprocess.check_output(cmd)`: returns the output on exit code 0, raises
`CalledProcessError` on a nonzero exit code, and propagates any error raised
by the invocation itself. -/
def check_output (w : World) (cmd : List String) : Except PyError String :=
  match w.exec cmd with
  | .exited code out => if code = 0 then .ok out else .error (.calledProcessError out)
  | .raised e => .error (.osError e)

/-- The command line built by `run_collector` (`charm.py` lines 91-93). -/
def collectorCmd (dry_run : Bool) : List String :=
  [COLLECTOR_SNAP, "-c", CONFIG_PATH] ++ if dry_run then ["--dry-run"] else []

/-- `run_collector` (`charm.py` lines 80-105): builds the command, runs it via
`check_output`, returns `true` on success and `false` on
`CalledProcessError`; any other exception propagates. The second component
records the subprocess invocations made. -/
def run_collector (w : World) (dry_run : Bool) : Except PyError Bool × Effects :=
  let cmd := collectorCmd dry_run
  match check_output w cmd with
  | .ok _ => (.ok true, { execs := [cmd] })
  | .error (.calledProcessError _) => (.ok false, { execs := [cmd] })
  | .error e => (.error e, { execs := [cmd] })

/-- `assess_status` (`charm.py` lines 165-171): runs the collector in dry-run
mode and sets the unit status accordingly; returns nothing. -/
def assess_status (w : World) : Except PyError Unit × Effects :=
  match run_collector w true with
  | (.ok collector_ok, eff) =>
    let st := if collector_ok then UnitStatus.active "Unit ready."
      else UnitStatus.blocked "Collector is unable to run. Please see logs."
    (.ok (), { eff with statusSets := eff.statusSets ++ [st] })
  | (.error e, eff) => (.error e, eff)

/-- `_on_collect_action` (`charm.py` lines 173-179): runs a full collection
and reports the action result or failure. -/
def on_collect_action (w : World) : Except PyError Unit × Effects :=
  match run_collector w false with
  | (.ok true, eff) =>
    (.ok (), { eff with actionResults := [[("result", "Collection completed.")]] })
  | (.ok false, eff) =>
    (.ok (), { eff with actionFails := ["Collection failed. See logs for more info."] })
  | (.error e, eff) => (.error e, eff)

/-! ## snap_path memoization and installation -/

/-- The mutable instance attributes set in `__init__` (`charm.py` lines
41-42): `_snap_path` and `_is_snap_path_cached`. -/
structure CharmState where
  snapPathCache : Option String
  isSnapPathCached : Bool
deriving DecidableEq, Repr

/-- The state fresh out of `__init__`. -/
def initState : CharmState := { snapPathCache := none, isSnapPathCached := false }

/-- The `snap_path` property (`charm.py` lines 53-72). On the first read it
fetches the `collector-snap` resource, treating a `ModelError` or a
zero-length file as "no snap attached"; the `finally` clause marks the cache
filled even when `getsize` raises. Returns the value read (or the propagated
exception), the updated state, and the number of `fetch` calls made. -/
def snap_path (w : World) (st : CharmState) :
    Except PyError (Option String) × CharmState × Effects :=
  if st.isSnapPathCached then (.ok st.snapPathCache, st, {})
  else
    match w.fetchResource "collector-snap" with
    | .error _ =>
      (.ok none, { snapPathCache := none, isSnapPathCached := true }, { fetches := 1 })
    | .ok path =>
      match w.getsize path with
      | .ok size =>
        let p := if size > 0 then some path else none
        (.ok p, { snapPathCache := p, isSnapPathCached := true }, { fetches := 1 })
      | .error e =>
        (.error (.osError e),
          { snapPathCache := some path, isSnapPathCached := true }, { fetches := 1 })

/-- Python truthiness of an `Optional[str]`: `None` and `""` are falsy. -/
def pyTruthy : Option String → Bool
  | none => false
  | some s => !s.isEmpty

/-- `_on_install` (`charm.py` lines 107-117): installs from the local snap
resource in dangerous mode when `snap_path` is truthy, otherwise ensures the
latest channel revision, then assesses status. -/
def on_install (w : World) (st : CharmState) :
    Except PyError Unit × CharmState × Effects :=
  match snap_path w st with
  | (.error e, st1, eff) => (.error e, st1, eff)
  | (.ok p, st1, eff) =>
    let eff1 :=
      if pyTruthy p then
        { eff with snapOps := eff.snapOps ++ [SnapOp.installLocal (pyStrOpt p) true] }
      else
        { eff with snapOps := eff.snapOps ++ [SnapOp.ensureLatest] }
    match assess_status w with
    | (.ok _, aeff) => (.ok (), st1, eff1.app aeff)
    | (.error e, aeff) => (.error e, st1, eff1.app aeff)

/-! ## Event wiring -/

/-- Lifecycle events observed in `__init__` (`charm.py` lines 44-51). -/
inductive Event where
  | configChanged
  | install
  | upgradeCharm
  | collectAction
  | inventoryExporterRelationChanged
  | inventoryExporterRelationDeparted
deriving DecidableEq, Repr

/-- Handlers registered in `__init__`. -/
inductive Handler where
  | reconfigureSnap
  | onInstall
  | onCollectAction
deriving DecidableEq, Repr

/-- The observer table of `__init__` (`charm.py` lines 44-51). -/
def handlerFor : Event → Handler
  | .configChanged => .reconfigureSnap
  | .install => .onInstall
  | .upgradeCharm => .onInstall
  | .collectAction => .onCollectAction
  | .inventoryExporterRelationChanged => .reconfigureSnap
  | .inventoryExporterRelationDeparted => .reconfigureSnap

/-! ## Auxiliary notions used to state the claims -/

/-- `n` successive reads of the `snap_path` property on one charm instance:
the list of read results, the final state, and the total number of
`resources.fetch` invocations made. -/
def snapPathReads (w : World) : CharmState → Nat →
    List (Except PyError (Option String)) × CharmState × Nat
  | st, 0 => ([], st, 0)
  | st, n + 1 =>
    let (r, st1, eff) := snap_path w st
    let (rs, st2, f) := snapPathReads w st1 n
    (r :: rs, st2, eff.fetches + f)

/-- The snap path that `snap_path` is specified to resolve: the fetched
resource path when it exists with positive size, `none` otherwise. -/
def expectedSnapPath (w : World) : Option String :=
  match w.fetchResource "collector-snap" with
  | .error _ => none
  | .ok path =>
    match w.getsize path with
    | .ok size => if size > 0 then some path else none
    | .error _ => none

/-- Validity of a string as base64 text in the usual (RFC 4648) sense: a
sequence of whole quads of alphabet characters, except that the final quad
may end in one or two `=` pads. Used only to state claims about invalid
inputs; the code itself uses the lenient `b64decode` above. -/
def isValidBase64Text (s : String) : Bool :=
  let n := s.length
  n % 4 = 0 &&
    (List.range n).all fun i =>
      match s.data.get? i with
      | none => false
      | some c =>
        if c = '=' then n ≤ i + 2
        else (b64Index c).isSome

/-! ## Concrete environments used by witnesses -/

/-- A world in which every command exits 0 and a 10-byte snap resource is
attached. -/
def wExitZero : World :=
  { exec := fun _ => .exited 0 "Command OK",
    fetchResource := fun _ => .ok "/srv/collector.snap",
    getsize := fun _ => .ok 10 }

/-- A world in which every command exits 1 and no snap resource is attached
(fetch raises `ModelError`). -/
def wExitOne : World :=
  { exec := fun _ => .exited 1 "CMD failed",
    fetchResource := fun _ => .error (),
    getsize := fun _ => .error "No such file or directory" }

/-- A world in which invoking any command raises (the collector executable is
absent), and the attached snap resource is a zero-length file. -/
def wExecRaises : World :=
  { exec := fun _ => .raised "FileNotFoundError",
    fetchResource := fun _ => .ok "/srv/collector.snap",
    getsize := fun _ => .ok 0 }

/-! ## Claim theorems -/

/-- C3: for every value of `dry_run`, `run_collector` builds exactly the
command line `["software-inventory-collector", "-c", CONFIG_PATH]` with
`"--dry-run"` appended iff `dry_run` is true, executes it (exactly that
command, exactly once), and returns true iff the process exits with
status 0. -/
theorem run_collector_cmd_exit :
    collectorCmd false =
      ["software-inventory-collector", "-c",
        "/var/snap/software-inventory-collector/current/collector.yaml"] ∧
    collectorCmd true =
      ["software-inventory-collector", "-c",
        "/var/snap/software-inventory-collector/current/collector.yaml", "--dry-run"] ∧
    ∀ w dry_run n out, w.exec (collectorCmd dry_run) = ExecOutcome.exited n out →
      run_collector w dry_run =
        (.ok (decide (n = 0)), { execs := [collectorCmd dry_run] }) := by
  refine ⟨rfl, rfl, ?_⟩
  intro w dry_run n out h
  rcases n with _ | n <;> simp [run_collector, check_output, h]

/-- Witness for C3 at a concrete world where the process exits 0. -/
theorem run_collector_cmd_exit_witness :
    run_collector wExitZero true = (.ok true, { execs := [collectorCmd true] }) := by
  simpa using run_collector_cmd_exit.2.2 wExitZero true 0 "Command OK" rfl

/-- C2 counterexample: when invoking the process itself raises (here a
`FileNotFoundError` because the executable is absent), `run_collector` does
not return `false`: the error propagates past its boundary. -/
theorem run_collector_raises_counterexample :
    (run_collector wExecRaises true).1 = .error (.osError "FileNotFoundError") ∧
    (run_collector wExecRaises true).1 ≠ .ok false := by
  refine ⟨rfl, ?_⟩
  intro h
  simp [run_collector, check_output, wExecRaises] at h

/-- C2 (amended): `run_collector` converts a nonzero-exit failure
(`CalledProcessError`) into the return value `false`, but an error raised
while invoking the process (e.g. a missing executable) propagates out of
`run_collector` as an exception. -/
theorem run_collector_error_conversion :
    (∀ w dry_run n out, n ≠ 0 →
      w.exec (collectorCmd dry_run) = ExecOutcome.exited n out →
      (run_collector w dry_run).1 = .ok false) ∧
    (∀ w dry_run e, w.exec (collectorCmd dry_run) = ExecOutcome.raised e →
      (run_collector w dry_run).1 = .error (.osError e)) := by
  constructor
  · intro w dry_run n out hn h
    rcases n with _ | n
    · exact absurd rfl hn
    · simp [run_collector, check_output, h]
  · intro w dry_run e h
    simp [run_collector, check_output, h]

/-- Witness for C2 (amended): a nonzero exit yields `false`, a raising
invocation yields a propagated error. -/
theorem run_collector_error_conversion_witness :
    (run_collector wExitOne true).1 = .ok false ∧
    (run_collector wExecRaises false).1 = .error (.osError "FileNotFoundError") :=
  ⟨run_collector_error_conversion.1 wExitOne true 1 "CMD failed" (by decide) rfl,
   run_collector_error_conversion.2 wExecRaises false "FileNotFoundError" rfl⟩

/-- C1: `assess_status` invokes the dry-run probe exactly once; on probe
success the unit status is set to active with exactly the message
"Unit ready.", on probe failure to blocked with exactly the message
"Collector is unable to run. Please see logs."; these are the only two
statuses it can set, and it returns nothing (unit). -/
theorem assess_status_claim :
    (∀ w n out, w.exec (collectorCmd true) = ExecOutcome.exited n out →
      assess_status w =
        (.ok (),
          { execs := [collectorCmd true],
            statusSets := [if n = 0 then UnitStatus.active "Unit ready."
              else UnitStatus.blocked "Collector is unable to run. Please see logs."] })) ∧
    (∀ w, (assess_status w).2.execs = [collectorCmd true]) ∧
    (∀ w s, s ∈ (assess_status w).2.statusSets →
      s = UnitStatus.active "Unit ready." ∨
      s = UnitStatus.blocked "Collector is unable to run. Please see logs.") := by
  refine ⟨?_, ?_, ?_⟩
  · intro w n out h
    rcases n with _ | n <;> simp [assess_status, run_collector, check_output, h]
  · intro w
    rcases h : w.exec (collectorCmd true) with ⟨code, out⟩ | e
    · rcases code with _ | c <;> simp [assess_status, run_collector, check_output, h]
    · simp [assess_status, run_collector, check_output, h]
  · intro w s hs
    rcases h : w.exec (collectorCmd true) with ⟨code, out⟩ | e
    · rcases code with _ | c <;>
        simp [assess_status, run_collector, check_output, h] at hs <;> simp [hs]
    · simp [assess_status, run_collector, check_output, h] at hs

/-- Witness for C1: with a succeeding probe the status becomes active
"Unit ready."; with a failing probe it becomes blocked. -/
theorem assess_status_claim_witness :
    assess_status wExitZero =
      (.ok (), { execs := [collectorCmd true],
                 statusSets := [UnitStatus.active "Unit ready."] }) ∧
    assess_status wExitOne =
      (.ok (), { execs := [collectorCmd true],
                 statusSets :=
                   [UnitStatus.blocked "Collector is unable to run. Please see logs."] }) :=
  ⟨by simpa using assess_status_claim.1 wExitZero 0 "Command OK" rfl,
   by simpa using assess_status_claim.1 wExitOne 1 "CMD failed" rfl⟩

/-- C8: for the collect action handler, a successful full run sets the action
result to exactly the map with key "result" and value "Collection completed.";
a failed run fails the action with exactly the message
"Collection failed. See logs for more info."; the unit status is never
touched by this handler. -/
theorem on_collect_action_claim :
    (∀ w n out, w.exec (collectorCmd false) = ExecOutcome.exited n out →
      on_collect_action w =
        (.ok (),
          { execs := [collectorCmd false],
            actionResults := if n = 0 then [[("result", "Collection completed.")]] else [],
            actionFails :=
              if n = 0 then [] else ["Collection failed. See logs for more info."] })) ∧
    (∀ w, (on_collect_action w).2.statusSets = []) := by
  constructor
  · intro w n out h
    rcases n with _ | n <;> simp [on_collect_action, run_collector, check_output, h]
  · intro w
    rcases h : w.exec (collectorCmd false) with ⟨code, out⟩ | e
    · rcases code with _ | c <;> simp [on_collect_action, run_collector, check_output, h]
    · simp [on_collect_action, run_collector, check_output, h]

/-- Witness for C8: success and failure outcomes of the collect action at
concrete worlds. -/
theorem on_collect_action_claim_witness :
    on_collect_action wExitZero =
      (.ok (), { execs := [collectorCmd false],
                 actionResults := [[("result", "Collection completed.")]] }) ∧
    on_collect_action wExitOne =
      (.ok (), { execs := [collectorCmd false],
                 actionFails := ["Collection failed. See logs for more info."] }) :=
  ⟨by simpa using on_collect_action_claim.1 wExitZero 0 "Command OK" rfl,
   by simpa using on_collect_action_claim.1 wExitOne 1 "CMD failed" rfl⟩

/-! ## Concrete inputs for the render_config claims -/

/-- Config options mirroring the repository's own unit test for
`render_config` (the certificate is the base64 encoding of
"--start cert--"). -/
def cfgFull : Bag :=
  [("site", "Testing Site"), ("customer", "Test Customer"),
   ("collection_path", "/tmp/output"), ("juju_ca_cert", "LS1zdGFydCBjZXJ0LS0="),
   ("juju_endpoint", "10.0.0.1:17070"), ("juju_username", "admin"),
   ("juju_password", "pass")]

/-- One relation with one remote unit advertising all four keys. -/
def relFull : List Relation :=
  [⟨[[("private-address", "10.0.0.5"), ("port", "8765"),
      ("hostname", "juju-exporter-0"), ("model", "inventory-collector")]]⟩]

/-- The document `render_config cfgFull relFull` produces. -/
def docFull : CollectorConfig :=
  { settings :=
      { collection_path := some "/tmp/output", customer := some "Test Customer",
        site := some "Testing Site" },
    juju_controller :=
      { endpoint := some "10.0.0.1:17070", username := some "admin",
        password := some "pass", ca_cert := "--start cert--" },
    targets :=
      [{ endpoint := "10.0.0.5:8765", hostname := some "juju-exporter-0",
         customer := some "Test Customer", site := some "Testing Site",
         model := some "inventory-collector" }] }

/-- Config options for the missing-relation-key counterexample. -/
def cfgPartial : Bag := [("customer", "acme"), ("site", "hq")]

/-- One relation with one remote unit whose data lacks `private-address`. -/
def relPartial : List Relation :=
  [⟨[[("port", "8080"), ("hostname", "h1"), ("model", "m1")]]⟩]

/-- The document `render_config cfgPartial relPartial` produces. -/
def docPartial : CollectorConfig :=
  { settings :=
      { collection_path := none, customer := some "acme", site := some "hq" },
    juju_controller :=
      { endpoint := none, username := none, password := none, ca_cert := "" },
    targets :=
      [{ endpoint := "None:8080", hostname := some "h1", customer := some "acme",
         site := some "hq", model := some "m1" }] }

/-- Config options whose `juju_ca_cert` is the string "!": not valid base64
text, yet silently accepted by Python's lenient decoder. -/
def cfgBang : Bag := [("juju_ca_cert", "!")]

/-- The document `render_config cfgBang []` produces. -/
def docBang : CollectorConfig :=
  { settings := { collection_path := none, customer := none, site := none },
    juju_controller :=
      { endpoint := none, username := none, password := none, ca_cert := "" },
    targets := [] }

/-- C4: for every set of N related units on the inventory-exporter relation,
the targets sequence has exactly N entries; each entry built for a unit whose
data carries all four keys is the record with endpoint
private-address:port, the unit's hostname and model, and the charm's own
customer and site options. -/
theorem render_config_targets_claim :
    ∀ cfg rels doc writes, render_config cfg rels = (.ok doc, writes) →
      doc.targets.length = (rels.map fun r => r.units.length).sum ∧
      doc.targets =
        ((rels.map Relation.units).flatten).map
          (mkTarget (lookupBag cfg "customer") (lookupBag cfg "site")) ∧
      ∀ d addr port host mdl,
        lookupBag d "private-address" = some addr → lookupBag d "port" = some port →
        lookupBag d "hostname" = some host → lookupBag d "model" = some mdl →
        mkTarget (lookupBag cfg "customer") (lookupBag cfg "site") d =
          { endpoint := addr ++ ":" ++ port, hostname := some host,
            customer := lookupBag cfg "customer", site := lookupBag cfg "site",
            model := some mdl } := by
  intro cfg rels doc writes h
  rcases hd : decodeCaCert ((lookupBag cfg "juju_ca_cert").getD "") with e | ca <;>
    simp [render_config, hd] at h
  refine ⟨?_, ?_, ?_⟩
  · simp [← h.1, List.length_flatten, List.map_map, Function.comp_def]
  · simp [← h.1, List.map_flatten, List.map_map, Function.comp_def]
  · intro d addr port host mdl ha hp hh hm
    simp [mkTarget, ha, hp, hh, hm, pyStrOpt]

set_option maxHeartbeats 2000000 in
/-- Evaluation of `render_config` at the unit-test configuration. -/
theorem render_config_full_eval :
    render_config cfgFull relFull = (.ok docFull, [(CONFIG_PATH, docFull)]) := rfl

/-- Witness for C4 at the repository's own unit-test inputs: one related unit
yields exactly one target with all fields as claimed. -/
theorem render_config_targets_claim_witness :
    render_config cfgFull relFull = (.ok docFull, [(CONFIG_PATH, docFull)]) ∧
    docFull.targets.length = (relFull.map fun r => r.units.length).sum := by
  have h := render_config_targets_claim cfgFull relFull docFull
    [(CONFIG_PATH, docFull)] render_config_full_eval
  exact ⟨render_config_full_eval, h.1⟩

/-- C5: the settings and juju_controller sections are a pure function of the
configuration options: collection_path, customer, site, juju_endpoint,
juju_username and juju_password are copied verbatim, juju_ca_cert is
base64-decoded to UTF-8 text, and an empty or absent juju_ca_cert decodes to
the empty string rather than raising. -/
theorem render_config_sections_claim :
    (∀ cfg rels doc writes, render_config cfg rels = (.ok doc, writes) →
      doc.settings = { collection_path := lookupBag cfg "collection_path",
                       customer := lookupBag cfg "customer",
                       site := lookupBag cfg "site" } ∧
      doc.juju_controller.endpoint = lookupBag cfg "juju_endpoint" ∧
      doc.juju_controller.username = lookupBag cfg "juju_username" ∧
      doc.juju_controller.password = lookupBag cfg "juju_password" ∧
      decodeCaCert ((lookupBag cfg "juju_ca_cert").getD "") =
        .ok doc.juju_controller.ca_cert) ∧
    decodeCaCert "" = .ok "" ∧
    (∀ cfg rels, lookupBag cfg "juju_ca_cert" = none →
      (render_config cfg rels).1.map (fun d => d.juju_controller.ca_cert) = .ok "") := by
  refine ⟨?_, rfl, ?_⟩
  · intro cfg rels doc writes h
    rcases hd : decodeCaCert ((lookupBag cfg "juju_ca_cert").getD "") with e | ca <;>
      simp [render_config, hd] at h
    simp [← h.1, hd]
  · intro cfg rels hnone
    have hd : decodeCaCert ((lookupBag cfg "juju_ca_cert").getD "") = .ok "" := by
      rw [hnone]
      rfl
    simp [render_config, hd, Except.map]

/-- Witness for C5: the verbatim copies and the decoded certificate at the
unit-test configuration. -/
theorem render_config_sections_claim_witness :
    docFull.juju_controller.endpoint = lookupBag cfgFull "juju_endpoint" ∧
    decodeCaCert ((lookupBag cfgFull "juju_ca_cert").getD "") =
      .ok docFull.juju_controller.ca_cert := by
  have h := render_config_sections_claim.1 cfgFull relFull docFull
    [(CONFIG_PATH, docFull)] render_config_full_eval
  exact ⟨h.2.1, h.2.2.2.2⟩

/-- C6 counterexample: a unit whose relation data lacks `private-address`
does not make render_config raise, but the missing field does not surface as
a null or empty value either: it surfaces as the literal text "None" inside
the endpoint string, which equals "None:8080" (neither empty nor the ":8080"
an empty value would give, nor a null — the endpoint is a plain string). -/
theorem render_config_missing_key_counterexample :
    render_config cfgPartial relPartial = (.ok docPartial, [(CONFIG_PATH, docPartial)]) ∧
    docPartial.targets =
      [{ endpoint := "None:8080", hostname := some "h1", customer := some "acme",
         site := some "hq", model := some "m1" }] ∧
    ("None:8080" : String) ≠ "" ∧ ("None:8080" : String) ≠ ":8080" := by
  exact ⟨rfl, rfl, by decide, by decide⟩

/-- C6 (amended): render_config never raises on account of relation data; a
target is emitted for every unit with all five fields present: a missing
hostname or model surfaces as a null value, while a missing private-address
or port surfaces as the literal text "None" embedded in the endpoint
string. -/
theorem render_config_missing_keys_amended :
    (∀ cfg rels, (decodeCaCert ((lookupBag cfg "juju_ca_cert").getD "")).isOk →
      ((render_config cfg rels).1).isOk) ∧
    (∀ cfg rels doc writes, render_config cfg rels = (.ok doc, writes) →
      doc.targets =
        ((rels.map Relation.units).flatten).map
          (mkTarget (lookupBag cfg "customer") (lookupBag cfg "site"))) ∧
    (∀ c s d, lookupBag d "hostname" = none → (mkTarget c s d).hostname = none) ∧
    (∀ c s d, lookupBag d "model" = none → (mkTarget c s d).model = none) ∧
    (∀ c s d, lookupBag d "private-address" = none →
      (mkTarget c s d).endpoint = "None:" ++ pyStrOpt (lookupBag d "port")) ∧
    (∀ c s d, lookupBag d "port" = none →
      (mkTarget c s d).endpoint =
        pyStrOpt (lookupBag d "private-address") ++ ":None") := by
  refine ⟨?_, ?_, ?_, ?_, ?_, ?_⟩
  · intro cfg rels hok
    rcases hd : decodeCaCert ((lookupBag cfg "juju_ca_cert").getD "") with e | ca
    · simp [hd, Except.isOk, Except.toBool] at hok
    · simp [render_config, hd, Except.isOk, Except.toBool]
  · intro cfg rels doc writes h
    rcases hd : decodeCaCert ((lookupBag cfg "juju_ca_cert").getD "") with e | ca <;>
      simp [render_config, hd] at h
    simp [← h.1, List.map_flatten, List.map_map, Function.comp_def]
  · intro c s d hh
    simp [mkTarget, hh]
  · intro c s d hm
    simp [mkTarget, hm]
  · intro c s d ha
    simp [mkTarget, ha, pyStrOpt]
  · intro c s d hp
    simp [mkTarget, hp, pyStrOpt, String.append_assoc]

/-- Witness for C6 (amended) at the concrete missing-key input. -/
theorem render_config_missing_keys_amended_witness :
    ((render_config cfgPartial relPartial).1).isOk ∧
    (mkTarget (some "acme") (some "hq")
      [("port", "8080"), ("hostname", "h1"), ("model", "m1")]).endpoint =
      "None:" ++ pyStrOpt (lookupBag
        [("port", "8080"), ("hostname", "h1"), ("model", "m1")] "port") :=
  ⟨render_config_missing_keys_amended.1 cfgPartial relPartial (by decide),
   render_config_missing_keys_amended.2.2.2.2.1 (some "acme") (some "hq")
     [("port", "8080"), ("hostname", "h1"), ("model", "m1")] rfl⟩

/-- C10 counterexample: the string "!" is not valid base64 text, yet
render_config does not raise on it — Python's lenient decoder discards
characters outside the base64 alphabet — and the configuration file is
written (with an empty certificate). -/
theorem render_config_invalid_b64_counterexample :
    isValidBase64Text "!" = false ∧
    render_config cfgBang [] = (.ok docBang, [(CONFIG_PATH, docBang)]) :=
  ⟨by decide, rfl⟩

/-- C10 (amended): when the base64 decode of juju_ca_cert (or the UTF-8
decode of its result) actually raises — e.g. a data-character count one more
than a multiple of 4, incorrect padding, or non-UTF-8 bytes — render_config
propagates the error, and since the decode runs before the file is opened,
no write is performed and the existing configuration file is unchanged. -/
theorem render_config_decode_error_amended :
    ∀ cfg rels e, decodeCaCert ((lookupBag cfg "juju_ca_cert").getD "") = .error e →
      render_config cfg rels = (.error e, []) := by
  intro cfg rels e h
  simp [render_config, h]

/-- Witness for C10 (amended): the one-character option "a" makes the base64
decode raise, the error propagates, and no file write happens. -/
theorem render_config_decode_error_amended_witness :
    render_config [("juju_ca_cert", "a")] [] =
      (.error "binascii.Error: Invalid base64-encoded string: number of data characters cannot be 1 more than a multiple of 4",
       []) :=
  render_config_decode_error_amended [("juju_ca_cert", "a")] [] _ rfl

/-! ## snap_path memoization -/

/-- Once the cache flag is set, a read of `snap_path` returns the cached
value, leaves the state unchanged, and performs no fetch. -/
theorem snap_path_cached (w : World) (st : CharmState)
    (h : st.isSnapPathCached = true) :
    snap_path w st = (.ok st.snapPathCache, st, {}) := by
  simp [snap_path, h]

/-- From a cached state, any number of reads returns the cached value each
time, with zero fetches. -/
theorem snapPathReads_cached (w : World) (st : CharmState)
    (h : st.isSnapPathCached = true) :
    ∀ n, snapPathReads w st n = (List.replicate n (.ok st.snapPathCache), st, 0) := by
  intro n
  induction n with
  | zero => simp [snapPathReads]
  | succ n ih => simp [snapPathReads, snap_path_cached w st h, ih, List.replicate_succ]

/-- The first read of `snap_path` in a world where the lookup either raises
`ModelError` or fetches a path whose size query succeeds: it resolves to the
expected value, fills the cache, and makes exactly one fetch. -/
theorem snap_path_first (w : World)
    (hw : w.fetchResource "collector-snap" = .error () ∨
      ∃ p s, w.fetchResource "collector-snap" = .ok p ∧ w.getsize p = .ok s) :
    snap_path w initState =
      (.ok (expectedSnapPath w),
        { snapPathCache := expectedSnapPath w, isSnapPathCached := true },
        { fetches := 1 }) := by
  rcases hw with h | ⟨p, s, hp, hs⟩
  · simp [snap_path, initState, expectedSnapPath, h]
  · simp [snap_path, initState, expectedSnapPath, hp, hs]

/-- C9: `snap_path` is memoized: across any sequence of reads on one charm
instance starting from the freshly-initialized state, the underlying
resource lookup is invoked at most once — including when it raises
`ModelError` or yields a zero-length file — and every read returns the same
value: the artifact path when it exists with size greater than zero,
otherwise none. -/
theorem snap_path_memoized_claim :
    ∀ w, (w.fetchResource "collector-snap" = .error () ∨
      ∃ p s, w.fetchResource "collector-snap" = .ok p ∧ w.getsize p = .ok s) →
    ∀ n, (snapPathReads w initState n).2.2 ≤ 1 ∧
      ∀ r ∈ (snapPathReads w initState n).1, r = .ok (expectedSnapPath w) := by
  intro w hw n
  rcases n with _ | n
  · simp [snapPathReads]
  · have h1 := snap_path_first w hw
    have h2 := snapPathReads_cached w
      { snapPathCache := expectedSnapPath w, isSnapPathCached := true } rfl n
    constructor
    · simp [snapPathReads, h1, h2]
    · intro r hr
      simp [snapPathReads, h1, h2, List.mem_replicate] at hr
      rcases hr with hr | ⟨-, hr⟩ <;> simp [hr]

/-- Witness for C9: three successive reads in a world with a 10-byte
attached snap make one fetch and all return the same path; likewise for a
world whose lookup raises ModelError. -/
theorem snap_path_memoized_claim_witness :
    ((snapPathReads wExitZero initState 3).2.2 ≤ 1 ∧
      ∀ r ∈ (snapPathReads wExitZero initState 3).1,
        r = .ok (expectedSnapPath wExitZero)) ∧
    ((snapPathReads wExitOne initState 3).2.2 ≤ 1 ∧
      ∀ r ∈ (snapPathReads wExitOne initState 3).1,
        r = .ok (expectedSnapPath wExitOne)) :=
  ⟨snap_path_memoized_claim wExitZero
      (Or.inr ⟨"/srv/collector.snap", 10, rfl, rfl⟩) 3,
   snap_path_memoized_claim wExitOne (Or.inl rfl) 3⟩

/-- C7: the install handler is bound to both the install and the
upgrade-charm events; when `snap_path` yields a (nonempty) local path the
snap is installed from that path with dangerous mode on, otherwise the
latest channel revision is ensured; in both cases exactly one status
assessment follows (one dry-run probe, one status set). -/
theorem on_install_claim :
    (handlerFor Event.install = Handler.onInstall ∧
      handlerFor Event.upgradeCharm = Handler.onInstall) ∧
    (∀ w st path st1 eff n out,
      snap_path w st = (.ok (some path), st1, eff) → path.isEmpty = false →
      w.exec (collectorCmd true) = ExecOutcome.exited n out →
      on_install w st =
        (.ok (), st1,
          Effects.app { eff with snapOps := eff.snapOps ++ [SnapOp.installLocal path true] }
            { execs := [collectorCmd true],
              statusSets := [if n = 0 then UnitStatus.active "Unit ready."
                else UnitStatus.blocked "Collector is unable to run. Please see logs."] })) ∧
    (∀ w st st1 eff n out,
      snap_path w st = (.ok none, st1, eff) →
      w.exec (collectorCmd true) = ExecOutcome.exited n out →
      on_install w st =
        (.ok (), st1,
          Effects.app { eff with snapOps := eff.snapOps ++ [SnapOp.ensureLatest] }
            { execs := [collectorCmd true],
              statusSets := [if n = 0 then UnitStatus.active "Unit ready."
                else UnitStatus.blocked "Collector is unable to run. Please see logs."] })) := by
  refine ⟨⟨rfl, rfl⟩, ?_, ?_⟩
  · intro w st path st1 eff n out hsnap hpath hexec
    rcases n with _ | n <;>
      simp [on_install, hsnap, pyTruthy, hpath, pyStrOpt, assess_status,
        run_collector, check_output, hexec, Effects.app]
  · intro w st st1 eff n out hsnap hexec
    rcases n with _ | n <;>
      simp [on_install, hsnap, pyTruthy, assess_status,
        run_collector, check_output, hexec, Effects.app]

/-- Witness for C7: with an attached 10-byte snap the handler installs from
the local path in dangerous mode; with the resource lookup raising
ModelError it ensures the latest channel revision; each is followed by one
status assessment. -/
theorem on_install_claim_witness :
    on_install wExitZero initState =
      (.ok (),
        { snapPathCache := some "/srv/collector.snap", isSnapPathCached := true },
        Effects.app { fetches := 1, snapOps := [SnapOp.installLocal "/srv/collector.snap" true] }
          { execs := [collectorCmd true],
            statusSets := [UnitStatus.active "Unit ready."] }) ∧
    on_install wExitOne initState =
      (.ok (),
        { snapPathCache := none, isSnapPathCached := true },
        Effects.app { fetches := 1, snapOps := [SnapOp.ensureLatest] }
          { execs := [collectorCmd true],
            statusSets :=
              [UnitStatus.blocked "Collector is unable to run. Please see logs."] }) :=
  ⟨by simpa using (on_install_claim.2.1 wExitZero initState "/srv/collector.snap"
      { snapPathCache := some "/srv/collector.snap", isSnapPathCached := true }
      { fetches := 1 } 0 "Command OK" rfl rfl rfl),
   by simpa using (on_install_claim.2.2 wExitOne initState
      { snapPathCache := none, isSnapPathCached := true }
      { fetches := 1 } 1 "CMD failed" rfl rfl)⟩

end Collector
